import Mathlib

/-!
Shallow embedding of the authorization engine and audit-trail mechanism of the
`mazarbul` procurement/budget-tracking backend (`src/backend/app`), together
with theorems settling the frozen claims about it.

Conventions of the embedding:
* Python `str` values (roles, access levels, record types) stay `String`.
* Database rows become Lean structures; SQLAlchemy queries over them become
  `List.find?` / `List.any` / `List.filter` over in-memory lists, in list order
  (matching `.first()` / `.all()` on an unordered query).
* ISO-8601 timestamp strings, which the source compares with `>`, are modelled
  as `Nat` instants compared with `<` (lexicographic order on fixed-format ISO
  strings is chronological order).
* Python truthiness of a nullable integer column (`if x:`) is `x.getD 0 ≠ 0`:
  both `None` and `0` are falsy.
* A handler that `raise`s an `HTTPException` is modelled by returning the
  corresponding error constructor; a decision function returning
  `True` / `False` stays `Bool`.
* An attribute dereference that can hit `None` (an `AttributeError`) is
  modelled with `Option`: `none` marks the raising execution.
-/

namespace Mazarbul

/-- A row of the `user` table (`models.User`), restricted to the columns the
authorization engine reads. -/
structure Principal where
  id : Nat
  role : String
  department : Option String := none
  deriving Repr, DecidableEq

/-- A row of the `user_group_membership` table (`models.UserGroupMembership`). -/
structure Membership where
  userId : Nat
  groupId : Nat
  deriving Repr, DecidableEq

/-- A row of the `record_access` table (`models.RecordAccess`).  `expiresAt`
models the nullable ISO-string column `expires_at`. -/
structure RecordAccessRow where
  id : Nat := 0
  recordType : String
  recordId : Nat
  userId : Option Nat := none
  groupId : Option Nat := none
  accessLevel : String
  grantedBy : Option Nat := none
  grantedAt : Option Nat := none
  expiresAt : Option Nat := none
  deriving Repr, DecidableEq

/-- A record fetched generically by `check_record_access` via
`getattr(models, record_type)` / `db.get`.  `createdBy = none` covers both a
missing `created_by` attribute and a NULL column (either way the Python
comparison with the user's id is false); `ownerGroupId = none` likewise.
`hasDept`/`dept` keep the `hasattr(record, 'dept')` distinction, because
`None == None` is true in Python. -/
structure RecordRow where
  id : Nat
  createdBy : Option Nat := none
  ownerGroupId : Option Nat := none
  hasDept : Bool := false
  dept : Option String := none
  deriving Repr, DecidableEq

/-- A row of the `budget_item` table (`models.BudgetItem`), restricted to the
columns the claims touch. -/
structure BudgetItemRow where
  id : Nat
  workdayRef : String
  ownerGroupId : Nat
  createdBy : Option Nat := none
  deriving Repr, DecidableEq

/-- A `business_case_line_item` row with its `budget_item` relationship
resolved: `budgetItem = none` models a dangling `budget_item_id` (the ORM
relationship yields `None`). -/
structure LineItemRow where
  id : Nat
  budgetItem : Option BudgetItemRow
  deriving Repr, DecidableEq

/-- A `business_case` row (`models.BusinessCase`) with its `line_items`
relationship resolved. -/
structure BusinessCaseRow where
  id : Nat
  createdBy : Option Nat := none
  leadGroupId : Option Nat := none
  lineItems : List LineItemRow := []
  deriving Repr, DecidableEq

/-- A `wbs` row, restricted to what `create_asset` reads from its parent. -/
structure WBSRow where
  id : Nat
  ownerGroupId : Nat
  deriving Repr, DecidableEq

/-- The database state visible to the embedded functions. -/
structure DB where
  users : List Principal := []
  memberships : List Membership := []
  accesses : List RecordAccessRow := []
  /-- generic per-type record store backing `db.get(model_cls, id)` in
  `check_record_access` and `grant_access`, keyed by record-type tag -/
  records : List (String × RecordRow) := []
  budgetItems : List BudgetItemRow := []
  wbsRows : List WBSRow := []
  businessCases : List BusinessCaseRow := []
  deriving Repr

/-- The model-class names defined in `models.py`; `getattr(models, record_type,
None)` is non-`None` exactly for these. -/
def validRecordTypes : List String :=
  ["User", "UserGroup", "UserGroupMembership", "RecordAccess", "AuditLog",
   "BudgetItem", "BusinessCase", "BusinessCaseLineItem", "WBS", "Asset",
   "PurchaseOrder", "GoodsReceipt", "Resource", "ResourcePOAllocation"]

/-- `db.get(getattr(models, recordType, None), recordId)`: `none` when the
record-type tag names no model class or no row has that id. -/
def dbGet (db : DB) (recordType : String) (recordId : Nat) : Option RecordRow :=
  if validRecordTypes.contains recordType then
    (db.records.find? (fun p => p.1 == recordType && p.2.id == recordId)).map (·.2)
  else none

/-- Python truthiness of a nullable integer column: `None` and `0` are falsy. -/
def truthyOpt (o : Option Nat) : Bool := o.getD 0 ≠ 0

/-- SQL `col IN (list)` on a nullable column: NULL is never `IN`. -/
def optMem (o : Option Nat) (l : List Nat) : Bool :=
  match o with
  | some g => l.contains g
  | none => false

/-- `access_levels.get(x, 0)` — the default used for a stored grant's level. -/
def levelVal (s : String) : Nat :=
  if s == "Read" then 0 else if s == "Write" then 1 else if s == "Full" then 2 else 0

/-- `access_levels.get(x, 2)` — the default used for a required level. -/
def reqVal (s : String) : Nat :=
  if s == "Read" then 0 else if s == "Write" then 1 else if s == "Full" then 2 else 2

/-- `role_caps` dict in `check_record_access`; `.get(role, 0)`. -/
def roleCap (s : String) : Nat :=
  if s == "Viewer" then 0 else if s == "User" then 1
  else if s == "Manager" then 2 else if s == "Admin" then 2 else 0

/-- A grant matches the time filter `expires_at IS NULL OR expires_at > now()`. -/
def nonExpired (now : Nat) (a : RecordAccessRow) : Bool :=
  match a.expiresAt with
  | none => true
  | some t => now < t

/-- The group ids of the user's memberships, in membership-row order
(`user_group_ids` in `check_business_case_access`). -/
def userGroupIds (db : DB) (u : Principal) : List Nat :=
  (db.memberships.filter (fun m => m.userId == u.id)).map (·.groupId)

/-- `auth.user_in_owner_group`: Admin/Manager short-circuit, else a membership
row for (user, owner group) must exist.  The `required_level` parameter of the
source function is unused there and is dropped here. -/
def user_in_owner_group (u : Principal) (ownerGroupId : Nat) (db : DB) : Bool :=
  if u.role == "Admin" || u.role == "Manager" then true
  else db.memberships.any (fun m => m.userId == u.id && m.groupId == ownerGroupId)

/-! ### `auth.check_record_access` — the generic access decision -/

/-- Creator rule of `check_record_access`: the fetched record exists, has a
`created_by` attribute and it equals the caller's id. -/
def creatorAllows (db : DB) (u : Principal) (recordType : String) (recordId : Nat) : Bool :=
  match dbGet db recordType recordId with
  | some r => r.createdBy == some u.id
  | none => false

/-- Owner-group rule of `check_record_access`: the record has a truthy
`owner_group_id` and `user_in_owner_group` accepts. -/
def ownerAllows (db : DB) (u : Principal) (recordType : String) (recordId : Nat) : Bool :=
  match dbGet db recordType recordId with
  | some r => truthyOpt r.ownerGroupId && user_in_owner_group u (r.ownerGroupId.getD 0) db
  | none => false

/-- Direct user-grant rule: first non-expired `RecordAccess` row for this
(user, record type, record id), sufficient for the required level. -/
def userGrantAllows (db : DB) (now : Nat) (u : Principal)
    (recordType : String) (recordId : Nat) (required : String) : Bool :=
  match db.accesses.find? (fun a =>
      a.recordType == recordType && a.recordId == recordId &&
      a.userId == some u.id && nonExpired now a) with
  | some a => reqVal required ≤ levelVal a.accessLevel
  | none => false

/-- Group-grant rule: for each of the caller's memberships in row order, the
first non-expired grant to that group decides; the first sufficient one wins. -/
def groupGrantAllows (db : DB) (now : Nat) (u : Principal)
    (recordType : String) (recordId : Nat) (required : String) : Bool :=
  (db.memberships.filter (fun m => m.userId == u.id)).any (fun m =>
    match db.accesses.find? (fun a =>
        a.recordType == recordType && a.recordId == recordId &&
        a.groupId == some m.groupId && nonExpired now a) with
    | some a => reqVal required ≤ levelVal a.accessLevel
    | none => false)

/-- Department fallback: role `User`, the record has a `dept` attribute equal
to the caller's department, and the required level is Read or Write. -/
def deptAllows (db : DB) (u : Principal)
    (recordType : String) (recordId : Nat) (required : String) : Bool :=
  u.role == "User" &&
  (match dbGet db recordType recordId with
   | some r => r.hasDept && r.dept == u.department &&
       (required == "Read" || required == "Write")
   | none => false)

/-- `auth.check_record_access` for a resolved record id: `true` models
returning `current_user` (Allow), `false` models the raised 403 (Deny).
The rule order mirrors the source: Admin bypass, Manager bypass, role-cap
gate, creator, owner group, direct grant, group grants, department fallback. -/
def check_record_access (db : DB) (now : Nat) (u : Principal)
    (recordType : String) (recordId : Nat) (required : String) : Bool :=
  if u.role == "Admin" then true
  else if u.role == "Manager" then true
  else if roleCap u.role < reqVal required then false
  else if creatorAllows db u recordType recordId then true
  else if ownerAllows db u recordType recordId then true
  else if userGrantAllows db now u recordType recordId required then true
  else if groupGrantAllows db now u recordType recordId required then true
  else if deptAllows db u recordType recordId required then true
  else false

/-! ### `auth.check_business_case_access` — the hybrid BusinessCase policy -/

/-- The `.first()` of the explicit BusinessCase-grant query used in rule 2 and
rule 4 of `check_business_case_access` (both sites run the same query). -/
def bcFirstGrant (db : DB) (now : Nat) (u : Principal) (bcId : Nat) : Option RecordAccessRow :=
  db.accesses.find? (fun a =>
    a.recordType == "BusinessCase" && a.recordId == bcId &&
    (a.userId == some u.id || optMem a.groupId (userGroupIds db u)) &&
    nonExpired now a)

/-- The `.first()` of the explicit BudgetItem-grant query inside the line-item
loop of `check_business_case_access`. -/
def budgetFirstGrant (db : DB) (now : Nat) (u : Principal) (budgetItemId : Nat) :
    Option RecordAccessRow :=
  db.accesses.find? (fun a =>
    a.recordType == "BudgetItem" && a.recordId == budgetItemId &&
    (a.userId == some u.id || optMem a.groupId (userGroupIds db u)) &&
    nonExpired now a)

/-- One iteration of the line-item loop.  `some true`: the loop returns Allow;
`some false`: this item yields nothing, continue; `none`: the unconditional
`budget_item.id` dereference in the grant query hits a `None` relationship and
raises (`AttributeError`) — the owner-group branch is guarded by
`if budget_item and budget_item.owner_group_id:` but the grant query is not. -/
def lineItemStep (db : DB) (now : Nat) (u : Principal) (required : String)
    (li : LineItemRow) : Option Bool :=
  match li.budgetItem with
  | none => none
  | some bi =>
    if bi.ownerGroupId ≠ 0 && user_in_owner_group u bi.ownerGroupId db then some true
    else
      match budgetFirstGrant db now u bi.id with
      | some a => if reqVal required ≤ levelVal a.accessLevel then some true else some false
      | none => some false

/-- The `for line_item in business_case.line_items:` loop.  `some true`: some
item allowed; `some false`: the loop finished without deciding; `none`: an
iteration raised. -/
def loopLineItems (db : DB) (now : Nat) (u : Principal) (required : String) :
    List LineItemRow → Option Bool
  | [] => some false
  | li :: rest =>
    match lineItemStep db now u required li with
    | none => none
    | some true => some true
    | some false => loopLineItems db now u required rest

/-- Rules 3 and 4 of `check_business_case_access`: the line-item loop followed
by the explicit BusinessCase-grant override and the final `return False`. -/
def bcTailDecision (db : DB) (now : Nat) (u : Principal) (bc : BusinessCaseRow)
    (required : String) : Option Bool :=
  match loopLineItems db now u required bc.lineItems with
  | none => none
  | some true => some true
  | some false =>
    match bcFirstGrant db now u bc.id with
    | some a => if reqVal required ≤ levelVal a.accessLevel then some true else some false
    | none => some false

/-- `auth.check_business_case_access`.  `some true` / `some false` model the
Boolean verdict; `none` models an uncaught exception.  Rule order mirrors the
source: creator-Read, the lead-group gate for Write/Full (membership satisfies
Write only; otherwise the explicit BusinessCase grant must exist and suffice,
else the function returns False without reaching the line-item path), then the
line-item loop and the explicit-grant override. -/
def check_business_case_access (db : DB) (now : Nat) (u : Principal)
    (bc : BusinessCaseRow) (required : String) : Option Bool :=
  if bc.createdBy == some u.id && required == "Read" then some true
  else if (required == "Write" || required == "Full") && truthyOpt bc.leadGroupId then
    if required == "Write" && user_in_owner_group u (bc.leadGroupId.getD 0) db then some true
    else
      match bcFirstGrant db now u bc.id with
      | none => some false
      | some a =>
        if levelVal a.accessLevel < reqVal required then some false
        else bcTailDecision db now u bc required
  else bcTailDecision db now u bc required

/-! ### `routers/budget_items.py` — `get_budget_item` and `create_budget_item` -/

/-- Result of `GET /budget-items/{id}`. -/
inductive GetBudgetItemResult where
  | notFound
  | ok (item : BudgetItemRow)
  deriving Repr, DecidableEq

set_option linter.unusedVariables false in
/-- `get_budget_item`: fetch by primary key, 404 if absent, otherwise return
the record.  The route's only dependency is `get_current_user`; the
authenticated principal `u` is never consulted. -/
def get_budget_item (db : DB) (u : Principal) (id : Nat) : GetBudgetItemResult :=
  match db.budgetItems.find? (fun b => b.id == id) with
  | none => .notFound
  | some b => .ok b

/-- Request body `schemas.BudgetItemCreate`, restricted to the fields the
claims touch. -/
structure BudgetItemCreateReq where
  workdayRef : String
  ownerGroupId : Nat
  deriving Repr, DecidableEq

/-- The in-session ORM object built by `create_budget_item` before any flush:
its primary key is not yet generated (`id = none`). -/
structure PendingBudgetItem where
  id : Option Nat
  workdayRef : String
  ownerGroupId : Nat
  createdBy : Nat
  deriving Repr, DecidableEq

/-- A staged `audit_log` row (`models.AuditLog`), restricted to the columns the
claims touch.  The real column `record_id` is `nullable=False`; `recordId =
none` is a row that violates that constraint when flushed. -/
structure AuditEntryRow where
  tableName : String
  recordId : Option Nat
  action : String
  userId : Nat
  deriving Repr, DecidableEq

/-- Result of `POST /budget-items`: either the duplicate-`workday_ref` 400, or
the pair of rows staged on the session (`db.add`) before `db.commit()`. -/
inductive CreateBudgetItemResult where
  | duplicateRef
  | staged (item : PendingBudgetItem) (audit : AuditEntryRow)
  deriving Repr, DecidableEq

/-- `create_budget_item`: reject a duplicate `workday_ref`, build the budget
item (unflushed, so `item.id` is `None`), then build the CREATE audit entry
with `record_id=db_budget_item.id` — read before any flush. -/
def create_budget_item (db : DB) (u : Principal) (req : BudgetItemCreateReq) :
    CreateBudgetItemResult :=
  if db.budgetItems.any (fun b => b.workdayRef == req.workdayRef) then .duplicateRef
  else
    let item : PendingBudgetItem :=
      { id := none, workdayRef := req.workdayRef,
        ownerGroupId := req.ownerGroupId, createdBy := u.id }
    let audit : AuditEntryRow :=
      { tableName := "budget_item", recordId := item.id,
        action := "CREATE", userId := u.id }
    .staged item audit

/-! ### `routers/record_access.py` — `grant_access` -/

/-- Request body `schemas.RecordAccessCreate`: every field of
`RecordAccessBase`, with `user_id` and `group_id` both optional and no
validator relating them. -/
structure RecordAccessCreate where
  recordType : String
  recordId : Nat
  userId : Option Nat := none
  groupId : Option Nat := none
  accessLevel : String
  expiresAt : Option Nat := none
  deriving Repr, DecidableEq

/-- Result of `POST /record-access/`. -/
inductive GrantResult where
  /-- 400 "Cannot grant Write or Full access to Viewers" -/
  | viewerPolicyError
  /-- 400 "Invalid record type" -/
  | invalidType
  /-- 403 "Insufficient permissions to grant access" -/
  | forbidden
  /-- the committed `record_access` row -/
  | ok (row : RecordAccessRow)
  deriving Repr, DecidableEq

/-- `db.query(models.User).get(user_id)`. -/
def findUser (db : DB) (userId : Nat) : Option Principal :=
  db.users.find? (fun t => t.id == userId)

/-- `grant_access`: the Viewer-level guard (only when the request carries a
truthy `user_id` and that user exists), then the grant-authority check —
Admin/Manager always may grant; otherwise the caller must be the record's
creator or hold a `RecordAccess` row of level `Full` on the record (this
authority query has no `expires_at` filter) — and finally the row is stored
with exactly the subject fields the request supplied. -/
def grant_access (db : DB) (now : Nat) (u : Principal) (req : RecordAccessCreate) :
    GrantResult :=
  if truthyOpt req.userId &&
     (match findUser db (req.userId.getD 0) with
      | some target => target.role == "Viewer" &&
          (req.accessLevel == "Write" || req.accessLevel == "Full")
      | none => false) then .viewerPolicyError
  else
    let stored : RecordAccessRow :=
      { id := db.accesses.length, recordType := req.recordType,
        recordId := req.recordId, userId := req.userId, groupId := req.groupId,
        accessLevel := req.accessLevel, expiresAt := req.expiresAt,
        grantedBy := some u.id, grantedAt := some now }
    if u.role == "Admin" || u.role == "Manager" then .ok stored
    else if !(validRecordTypes.contains req.recordType) then .invalidType
    else if (match dbGet db req.recordType req.recordId with
             | some r => r.createdBy == some u.id
             | none => false) then .ok stored
    else if db.accesses.any (fun a =>
        a.recordType == req.recordType && a.recordId == req.recordId &&
        a.userId == some u.id && a.accessLevel == "Full") then .ok stored
    else .forbidden

/-! ### `routers/assets.py` — `create_asset` (child creation with inheritance) -/

/-- Request body `schemas.AssetCreate`, restricted to the fields the claims
touch: the parent reference and the client-supplied `owner_group_id`. -/
structure AssetCreateReq where
  wbsId : Nat
  ownerGroupId : Nat
  deriving Repr, DecidableEq

/-- A stored `asset` row, restricted to the fields the claims touch. -/
structure AssetRow where
  wbsId : Nat
  ownerGroupId : Nat
  createdBy : Nat
  deriving Repr, DecidableEq

/-- Result of `POST /assets`. -/
inductive CreateAssetResult where
  /-- 404 "Parent WBS not found" -/
  | parentNotFound
  /-- 403 "Viewers cannot create assets" -/
  | viewerForbidden
  /-- 403 "You do not have access to create records under this parent..." -/
  | parentForbidden
  | ok (asset : AssetRow)
  deriving Repr, DecidableEq

/-- The parent-access grant query of `create_asset`: a non-expired Write/Full
`RecordAccess` row on the parent WBS for the caller or one of their groups. -/
def wbsWriteGrantExists (db : DB) (now : Nat) (u : Principal) (wbsId : Nat) : Bool :=
  db.accesses.any (fun a =>
    a.recordType == "WBS" && a.recordId == wbsId &&
    (a.userId == some u.id || optMem a.groupId (userGroupIds db u)) &&
    (a.accessLevel == "Write" || a.accessLevel == "Full") &&
    nonExpired now a)

/-- `create_asset`: resolve the parent WBS (404 if absent), refuse Viewers,
require non-Admin/Manager callers to be in the parent's owner group or hold a
Write/Full grant on it, then build the asset with
`**asset.model_dump(exclude={'owner_group_id'})` and
`owner_group_id=wbs.owner_group_id` — the client value is discarded. -/
def create_asset (db : DB) (now : Nat) (u : Principal) (req : AssetCreateReq) :
    CreateAssetResult :=
  match db.wbsRows.find? (fun w => w.id == req.wbsId) with
  | none => .parentNotFound
  | some wbs =>
    if u.role == "Viewer" then .viewerForbidden
    else if !(u.role == "Admin" || u.role == "Manager") &&
            !(userGroupIds db u).contains wbs.ownerGroupId &&
            !wbsWriteGrantExists db now u wbs.id then .parentForbidden
    else .ok { wbsId := req.wbsId, ownerGroupId := wbs.ownerGroupId, createdBy := u.id }

/-! ### `routers/business_case_line_items.py` — `create_line_item` -/

/-- Request body `schemas.BusinessCaseLineItemCreate`, restricted to the fields
the claims touch; `owner_group_id` is a required member of the schema. -/
structure LineItemCreateReq where
  businessCaseId : Nat
  budgetItemId : Nat
  ownerGroupId : Nat
  deriving Repr, DecidableEq

/-- A stored `business_case_line_item` row, restricted to the fields the
claims touch. -/
structure StoredLineItemRow where
  businessCaseId : Nat
  budgetItemId : Nat
  ownerGroupId : Nat
  createdBy : Nat
  deriving Repr, DecidableEq

/-- Result of `POST /business-case-line-items`. -/
inductive CreateLineItemResult where
  /-- 404 "Business case not found" -/
  | businessCaseNotFound
  /-- 404 "Budget item not found" -/
  | budgetItemNotFound
  | ok (item : StoredLineItemRow)
  deriving Repr, DecidableEq

/-- `create_line_item`: verify both parents exist, then build the row with
`**line_item.dict()` — including the client-supplied `owner_group_id`, which
is stored as sent (no `exclude`, no inherited value). -/
def create_line_item (db : DB) (u : Principal) (req : LineItemCreateReq) :
    CreateLineItemResult :=
  if (db.businessCases.find? (fun b => b.id == req.businessCaseId)).isNone then
    .businessCaseNotFound
  else if (db.budgetItems.find? (fun b => b.id == req.budgetItemId)).isNone then
    .budgetItemNotFound
  else
    .ok { businessCaseId := req.businessCaseId, budgetItemId := req.budgetItemId,
          ownerGroupId := req.ownerGroupId, createdBy := u.id }

/-! ### Concrete instances used by counterexamples and witnesses -/

/-- Scenario of end-to-end scenario 1: a plain `User` who is not in the owner
group, holds no grant, and did not create the item. -/
def userScn1 : Principal := { id := 7, role := "User" }

/-- Budget item owned by group 1, created by user 2. -/
def budgetItemScn1 : BudgetItemRow :=
  { id := 10, workdayRef := "WD-GROUP-TEST-001", ownerGroupId := 1, createdBy := some 2 }

/-- Database with only that budget item: no memberships, no grants. -/
def dbScn1 : DB := { budgetItems := [budgetItemScn1] }

/-- Database for the line-item creation scenario: budget item 10 owned by
group 1, business case 3. -/
def dbScn2 : DB :=
  { budgetItems := [{ id := 10, workdayRef := "WD-LI-001", ownerGroupId := 1 }],
    businessCases := [{ id := 3 }] }

/-- An Admin caller. -/
def adminScn : Principal := { id := 1, role := "Admin" }

/-- WBS 4 owned by group 1, parent of the asset-creation scenario. -/
def dbScn2a : DB := { wbsRows := [{ id := 4, ownerGroupId := 1 }] }

/-- A Viewer who created record 5. -/
def viewerScn3 : Principal := { id := 1, role := "Viewer" }

/-- A `User` with the same id, also the creator of record 5. -/
def userScn3 : Principal := { id := 1, role := "User" }

/-- Store holding a BudgetItem record created by user 1. -/
def dbScn3 : DB :=
  { records := [("BudgetItem", { id := 5, createdBy := some 1, ownerGroupId := some 3 })] }

/-- Principal for the lead-group gate scenario: `User` 5, member of group 8. -/
def userScn4 : Principal := { id := 5, role := "User" }

/-- Business case 11 with `lead_group_id = 3` and a line item whose budget
item is owned by group 8 (which user 5 IS a member of). -/
def bcScn4 : BusinessCaseRow :=
  { id := 11, createdBy := some 9, leadGroupId := some 3,
    lineItems := [{ id := 1,
                    budgetItem := some { id := 10, workdayRef := "WD-BC-001",
                                         ownerGroupId := 8 } }] }

/-- Membership of user 5 in group 8 only (not in lead group 3), no grants. -/
def dbScn4 : DB := { memberships := [{ userId := 5, groupId := 8 }] }

/-- Creator scenario for the hybrid policy: `User` 4 created business case 9,
which has no line items and no lead group. -/
def userScn5 : Principal := { id := 4, role := "User" }

/-- Business case 9 created by user 4, no line items, no lead group. -/
def bcScn5 : BusinessCaseRow := { id := 9, createdBy := some 4 }

/-- A grant request carrying neither `user_id` nor `group_id`. -/
def reqScn6 : RecordAccessCreate :=
  { recordType := "BudgetItem", recordId := 10, accessLevel := "Read" }

/-- The row `grant_access` stores for `reqScn6` issued by `adminScn` on an
empty database at time 0. -/
def rowScn6 : RecordAccessRow :=
  { id := 0, recordType := "BudgetItem", recordId := 10, userId := none,
    groupId := none, accessLevel := "Read", grantedBy := some 1,
    grantedAt := some 0 }

/-- Create request of the audit scenario. -/
def reqScn7 : BudgetItemCreateReq := { workdayRef := "WD-2025-001", ownerGroupId := 1 }

/-- `User` 1, holder of an expired Full grant. -/
def userScn8 : Principal := { id := 1, role := "User" }

/-- A Full grant to user 1 on BudgetItem 10 that expired at time 5. -/
def grantScn8 : RecordAccessRow :=
  { recordType := "BudgetItem", recordId := 10, userId := some 1,
    accessLevel := "Full", expiresAt := some 5 }

/-- Database holding the expired grant and both users. -/
def dbScn8 : DB := { users := [userScn8, { id := 2, role := "User" }], accesses := [grantScn8] }

/-- The same database with the expired grant removed. -/
def dbScn8absent : DB := { users := [userScn8, { id := 2, role := "User" }] }

/-- Grant request issued by user 1: Read on BudgetItem 10 for user 2. -/
def reqScn8 : RecordAccessCreate :=
  { recordType := "BudgetItem", recordId := 10, userId := some 2, accessLevel := "Read" }

/-- `User` 1 holding a Write grant on BudgetItem 5, for the monotonicity
witness. -/
def dbScn9 : DB :=
  { accesses := [{ recordType := "BudgetItem", recordId := 5, userId := some 1,
                   accessLevel := "Write" }] }

/-- The principal of the monotonicity witness. -/
def userScn9 : Principal := { id := 1, role := "User" }

/-- Business case with one line item whose budget item exists, for the
totality witness. -/
def bcScn10 : BusinessCaseRow :=
  { id := 2, createdBy := some 9,
    lineItems := [{ id := 1,
                    budgetItem := some { id := 10, workdayRef := "WD-T-001",
                                         ownerGroupId := 8 } }] }

/-! ### Theorems -/

/-- C1: `get_budget_item` returns the stored record to EVERY authenticated
principal — there is no Deny branch.  The route carries no access dependency,
so the decision engine is never consulted on this path: a non-Admin/Manager
principal outside the owner group with no grant receives the record, where
the spec (end-to-end scenario 1) and the repository test
`test_record_access_grant_to_group` demand a 403 Deny. -/
theorem c1_get_budget_item_has_no_access_check
    (db : DB) (u : Principal) (id : Nat) (b : BudgetItemRow)
    (hfind : db.budgetItems.find? (fun x => x.id == id) = some b) :
    get_budget_item db u id = .ok b := by
  unfold get_budget_item
  rw [hfind]

/-- C1 witness: the scenario-1 principal (role `User`, member of no group,
holder of no grant, not the creator) reads budget item 10 and receives it. -/
theorem c1_witness :
    dbScn1.budgetItems.find? (fun x => x.id == 10) = some budgetItemScn1 ∧
    get_budget_item dbScn1 userScn1 10 = .ok budgetItemScn1 := by
  refine ⟨by decide, ?_⟩
  exact c1_get_budget_item_has_no_access_check dbScn1 userScn1 10 budgetItemScn1 (by decide)

/-- C2 counterexample: creating a BusinessCaseLineItem under budget item 10
(owner group 1) while supplying `owner_group_id = 2` stores 2, the client
value, not the inherited 1 — `create_line_item` performs no inheritance. -/
theorem c2_counterexample :
    create_line_item dbScn2 adminScn
        { businessCaseId := 3, budgetItemId := 10, ownerGroupId := 2 } =
      .ok { businessCaseId := 3, budgetItemId := 10, ownerGroupId := 2, createdBy := 1 } ∧
    (dbScn2.budgetItems.find? (fun b => b.id == 10)).map (·.ownerGroupId) = some 1 := by
  exact ⟨by decide, by decide⟩

/-- C2 amended: child creations that go through a parent lookup with
`exclude={'owner_group_id'}` (Asset under WBS, shown here; WBS, PurchaseOrder,
GoodsReceipt and Allocation are the same pattern) do store the parent's
`owner_group_id` and discard the client value — but BusinessCaseLineItem does
not (see the counterexample). -/
theorem c2_create_asset_inherits_owner_group
    (db : DB) (now : Nat) (u : Principal) (req : AssetCreateReq)
    (wbs : WBSRow) (a : AssetRow)
    (hparent : db.wbsRows.find? (fun w => w.id == req.wbsId) = some wbs)
    (hok : create_asset db now u req = .ok a) :
    a.ownerGroupId = wbs.ownerGroupId := by
  unfold create_asset at hok
  simp only [hparent] at hok
  by_cases hv : (u.role == "Viewer") = true
  · rw [if_pos hv] at hok
    cases hok
  · rw [if_neg hv] at hok
    by_cases hp : (!(u.role == "Admin" || u.role == "Manager") &&
        !(userGroupIds db u).contains wbs.ownerGroupId &&
        !wbsWriteGrantExists db now u wbs.id) = true
    · rw [if_pos hp] at hok
      cases hok
    · rw [if_neg hp] at hok
      cases hok
      rfl

/-- C2 witness: an Admin creating an asset under WBS 4 (owner group 1) while
supplying `owner_group_id = 999` gets an asset owned by group 1. -/
theorem c2_witness :
    dbScn2a.wbsRows.find? (fun w => w.id == 4) = some { id := 4, ownerGroupId := 1 } ∧
    create_asset dbScn2a 0 adminScn { wbsId := 4, ownerGroupId := 999 } =
      .ok { wbsId := 4, ownerGroupId := 1, createdBy := 1 } ∧
    AssetRow.ownerGroupId { wbsId := 4, ownerGroupId := 1, createdBy := 1 } = 1 := by
  refine ⟨by decide, by decide, ?_⟩
  exact c2_create_asset_inherits_owner_group dbScn2a 0 adminScn
    { wbsId := 4, ownerGroupId := 999 } { id := 4, ownerGroupId := 1 }
    { wbsId := 4, ownerGroupId := 1, createdBy := 1 } (by decide) (by decide)

/-- C3 counterexample: a Viewer who created BudgetItem 5 and requests Write is
denied — the role-capability gate (`role_caps` caps Viewer at Read) raises 403
before the creator rule is reached, so the creator rule does NOT fire
regardless of role. -/
theorem c3_counterexample :
    (dbGet dbScn3 "BudgetItem" 5).map (·.createdBy) = some (some viewerScn3.id) ∧
    check_record_access dbScn3 0 viewerScn3 "BudgetItem" 5 "Write" = false := by
  exact ⟨by decide, by decide⟩

/-- C3 amended: the creator rule fires for every record type and every
required level WITHIN the role-capability gate (`Viewer` capped at Read,
`User` at Write, Manager/Admin at Full): once
`reqVal required ≤ roleCap u.role`, a creator is always allowed, regardless of
memberships or grants. -/
theorem c3_creator_allowed_within_role_cap
    (db : DB) (now : Nat) (u : Principal) (recordType : String) (recordId : Nat)
    (required : String) (r : RecordRow)
    (hcap : reqVal required ≤ roleCap u.role)
    (hget : dbGet db recordType recordId = some r)
    (hcreator : r.createdBy = some u.id) :
    check_record_access db now u recordType recordId required = true := by
  unfold check_record_access
  by_cases hA : u.role == "Admin"
  · simp [hA]
  · by_cases hM : u.role == "Manager"
    · simp [hA, hM]
    · have hgate : ¬ (roleCap u.role < reqVal required) := Nat.not_lt.mpr hcap
      have hcr : creatorAllows db u recordType recordId = true := by
        unfold creatorAllows
        rw [hget]
        simp [hcreator]
      simp [hA, hM, hgate, hcr]

/-- C3 witness: a `User` (cap Write) who created BudgetItem 5 is allowed
Write on it. -/
theorem c3_witness :
    reqVal "Write" ≤ roleCap userScn3.role ∧
    check_record_access dbScn3 0 userScn3 "BudgetItem" 5 "Write" = true := by
  refine ⟨by decide, ?_⟩
  exact c3_creator_allowed_within_role_cap dbScn3 0 userScn3 "BudgetItem" 5 "Write"
    { id := 5, createdBy := some 1, ownerGroupId := some 3 } (by decide) (by decide) (by decide)

/-- C6 counterexample: a grant request with `user_id = None` and
`group_id = None` is accepted by `grant_access` (Admin caller) and the stored
row has no subject at all — the one-subject shape is not enforced. -/
theorem c6_counterexample :
    grant_access {} 0 adminScn reqScn6 = .ok rowScn6 ∧
    rowScn6.userId = none ∧ rowScn6.groupId = none := by
  exact ⟨by decide, rfl, rfl⟩

/-- C6 amended: `grant_access` performs no validation of the subject shape:
whenever it stores a row, that row carries exactly the `user_id` and
`group_id` of the request — both, neither, or one, as sent.  (The only
subject-related check is the Viewer-level guard.) -/
theorem c6_grant_subject_stored_as_sent
    (db : DB) (now : Nat) (u : Principal) (req : RecordAccessCreate)
    (row : RecordAccessRow)
    (hok : grant_access db now u req = .ok row) :
    row.userId = req.userId ∧ row.groupId = req.groupId := by
  unfold grant_access at hok
  split at hok
  · cases hok
  · split at hok
    · cases hok
      exact ⟨rfl, rfl⟩
    · split at hok
      · cases hok
      · split at hok
        · cases hok
          exact ⟨rfl, rfl⟩
        · split at hok
          · cases hok
            exact ⟨rfl, rfl⟩
          · cases hok

/-- C6 amended witness: the Admin grant of `reqScn6` stores exactly the
request subject (here: neither field set). -/
theorem c6_witness :
    grant_access {} 0 adminScn reqScn6 = .ok rowScn6 ∧
    rowScn6.userId = reqScn6.userId ∧ rowScn6.groupId = reqScn6.groupId := by
  refine ⟨by decide, ?_⟩
  exact c6_grant_subject_stored_as_sent {} 0 adminScn reqScn6 rowScn6 (by decide)

/-- C7: every successful run of `create_budget_item` stages its CREATE audit
entry with `record_id = None`: the id is read from the unflushed ORM object,
so the staged audit row never carries the id of the created record (and
violates the `NOT NULL` constraint on `audit_log.record_id` at commit).  The
audit decorator in `auth.py` documents the required behavior
("For CREATE: ensure db.flush() is called to generate ID before audit log")
and `test_audit_log_created_on_create` asserts an audit row whose `record_id`
equals the new id — the route does neither a flush nor a late id read. -/
theorem c7_create_audit_misses_record_id
    (db : DB) (u : Principal) (req : BudgetItemCreateReq)
    (item : PendingBudgetItem) (audit : AuditEntryRow)
    (hok : create_budget_item db u req = .staged item audit) :
    audit.recordId = none ∧ audit.action = "CREATE" ∧ item.id = none := by
  unfold create_budget_item at hok
  split at hok
  · cases hok
  · cases hok
    exact ⟨rfl, rfl, rfl⟩

/-- C7 witness: the concrete create of `test_audit_log_created_on_create`
stages an audit entry without a record id. -/
theorem c7_witness :
    create_budget_item {} adminScn reqScn7 =
      .staged { id := none, workdayRef := "WD-2025-001", ownerGroupId := 1, createdBy := 1 }
        { tableName := "budget_item", recordId := none, action := "CREATE", userId := 1 } ∧
    ({ tableName := "budget_item", recordId := none, action := "CREATE",
       userId := 1 } : AuditEntryRow).recordId = none := by
  refine ⟨by decide, ?_⟩
  exact (c7_create_audit_misses_record_id {} adminScn reqScn7
    { id := none, workdayRef := "WD-2025-001", ownerGroupId := 1, createdBy := 1 }
    { tableName := "budget_item", recordId := none, action := "CREATE", userId := 1 }
    (by decide)).1

/-- C4: the lead-group gate of the hybrid policy.  When the required level is
Write or Full and `lead_group_id` is truthy: membership satisfies Write only
(the membership test is conjoined with `required_level == "Write"`, so Full is
never granted by membership), and when the membership test fails and no
sufficient non-expired explicit BusinessCase grant exists, the function
returns False at the gate — for EVERY line-item list, i.e. without falling
through to the line-item path. -/
theorem c4_lead_group_hard_gate
    (db : DB) (now : Nat) (u : Principal) (bc : BusinessCaseRow) (required : String)
    (hreq : required = "Write" ∨ required = "Full")
    (hlead : truthyOpt bc.leadGroupId = true)
    (hmem : required = "Full" ∨
      user_in_owner_group u (bc.leadGroupId.getD 0) db = false)
    (hgrant : ∀ a, bcFirstGrant db now u bc.id = some a →
      levelVal a.accessLevel < reqVal required) :
    check_business_case_access db now u bc required = some false := by
  unfold check_business_case_access
  have hnotread : (required == "Read") = false := by
    rcases hreq with h | h <;> simp [h]
  have hwf : (required == "Write" || required == "Full") = true := by
    rcases hreq with h | h <;> simp [h]
  have hgatecond : ((required == "Write" || required == "Full") &&
      truthyOpt bc.leadGroupId) = true := by simp [hwf, hlead]
  have hmem' : (required == "Write" &&
      user_in_owner_group u (bc.leadGroupId.getD 0) db) = false := by
    rcases hmem with h | h
    · subst h
      rfl
    · rw [h, Bool.and_false]
  simp only [hnotread, Bool.and_false, Bool.false_eq_true, if_false,
    hgatecond, if_true, hmem']
  cases hg : bcFirstGrant db now u bc.id with
  | none => simp only [hg]
  | some a =>
    simp only [hg]
    rw [if_pos (hgrant a hg)]

/-- C4 witness: user 5 (role `User`, member only of group 8) requests Write on
business case 11 whose lead group is 3; despite a line item whose budget item
is owned by group 8 (which would allow on the line-item path), the gate denies. -/
theorem c4_witness :
    truthyOpt bcScn4.leadGroupId = true ∧
    user_in_owner_group userScn4 (bcScn4.leadGroupId.getD 0) dbScn4 = false ∧
    check_business_case_access dbScn4 0 userScn4 bcScn4 "Write" = some false := by
  refine ⟨by decide, by decide, ?_⟩
  exact c4_lead_group_hard_gate dbScn4 0 userScn4 bcScn4 "Write"
    (Or.inl rfl) (by decide) (Or.inr (by decide))
    (fun a h => nomatch h)

/-- C5: a non-Admin/Manager creator of a BusinessCase with no line items, no
lead-group membership and no applicable grant gets Allow at Read (the
creator-audit rule) and Deny at Write — creator status never confers Write. -/
theorem c5_bc_creator_read_not_write
    (db : DB) (now : Nat) (u : Principal) (bc : BusinessCaseRow)
    (hA : u.role ≠ "Admin") (hM : u.role ≠ "Manager")
    (hcreated : bc.createdBy = some u.id)
    (hitems : bc.lineItems = [])
    (hmem : ∀ g, bc.leadGroupId = some g →
      db.memberships.any (fun m => m.userId == u.id && m.groupId == g) = false)
    (hgrant : bcFirstGrant db now u bc.id = none) :
    check_business_case_access db now u bc "Read" = some true ∧
    check_business_case_access db now u bc "Write" = some false := by
  have htail : bcTailDecision db now u bc "Write" = some false := by
    unfold bcTailDecision
    rw [hitems]
    simp only [loopLineItems, hgrant]
  constructor
  · unfold check_business_case_access
    simp [hcreated]
  · unfold check_business_case_access
    have h1 : (bc.createdBy == some u.id && ("Write" == "Read")) = false := by
      simp
    rw [h1]
    simp only [Bool.false_eq_true, if_false]
    cases hlg : bc.leadGroupId with
    | none =>
      have ht0 : truthyOpt none = false := rfl
      simp only [ht0, Bool.and_false, Bool.false_eq_true, if_false]
      exact htail
    | some g =>
      by_cases hg0 : g = 0
      · subst hg0
        have ht0 : truthyOpt (some 0) = false := by decide
        simp only [ht0, Bool.and_false, Bool.false_eq_true, if_false]
        exact htail
      · have htr : ((("Write" : String) == "Write" || ("Write" : String) == "Full") &&
            truthyOpt (some g)) = true := by
          simp [truthyOpt, hg0]
        have hrole : (u.role == "Admin" || u.role == "Manager") = false := by
          simp [hA, hM]
        have hnomem : user_in_owner_group u ((some g).getD 0) db = false := by
          unfold user_in_owner_group
          simp only [Option.getD_some, hrole, Bool.false_eq_true, if_false]
          exact hmem g hlg
        simp only [htr, if_true, hnomem, Bool.and_false, Bool.false_eq_true,
          if_false, hgrant]

/-- C5 witness: user 4 created business case 9 (no line items, no lead group);
in an empty database the hybrid policy allows Read and denies Write. -/
theorem c5_witness :
    check_business_case_access {} 0 userScn5 bcScn5 "Read" = some true ∧
    check_business_case_access {} 0 userScn5 bcScn5 "Write" = some false := by
  exact c5_bc_creator_read_not_write {} 0 userScn5 bcScn5
    (by decide) (by decide) (by decide) (by decide)
    (fun g h => nomatch h) (by decide)

/-- One line-item iteration never raises when its budget item is resolved. -/
theorem lineItemStep_isSome (db : DB) (now : Nat) (u : Principal) (required : String)
    (li : LineItemRow) (h : li.budgetItem.isSome = true) :
    (lineItemStep db now u required li).isSome = true := by
  unfold lineItemStep
  cases hbi : li.budgetItem with
  | none => simp [hbi] at h
  | some bi =>
    simp only [hbi]
    split
    · rfl
    · cases budgetFirstGrant db now u bi.id with
      | none => rfl
      | some a =>
        simp only []
        split <;> rfl

/-- The line-item loop never raises when every budget item is resolved. -/
theorem loopLineItems_isSome (db : DB) (now : Nat) (u : Principal) (required : String)
    (l : List LineItemRow)
    (h : ∀ li ∈ l, li.budgetItem.isSome = true) :
    (loopLineItems db now u required l).isSome = true := by
  induction l with
  | nil => rfl
  | cons li rest ih =>
    unfold loopLineItems
    have h1 := lineItemStep_isSome db now u required li (h li (List.mem_cons_self li rest))
    cases hs : lineItemStep db now u required li with
    | none => rw [hs] at h1; cases h1
    | some b =>
      cases b
      · simp only [hs]
        exact ih (fun x hx => h x (List.mem_cons_of_mem li hx))
      · simp [hs]

/-- Rules 3–4 of the hybrid policy never raise when every budget item is
resolved. -/
theorem bcTailDecision_isSome (db : DB) (now : Nat) (u : Principal)
    (bc : BusinessCaseRow) (required : String)
    (h : ∀ li ∈ bc.lineItems, li.budgetItem.isSome = true) :
    (bcTailDecision db now u bc required).isSome = true := by
  unfold bcTailDecision
  have hl := loopLineItems_isSome db now u required bc.lineItems h
  cases hs : loopLineItems db now u required bc.lineItems with
  | none => rw [hs] at hl; cases hl
  | some b =>
    cases b
    · simp only [hs]
      cases bcFirstGrant db now u bc.id with
      | none => rfl
      | some a =>
        simp only []
        split <;> rfl
    · simp [hs]

/-- C10: the hybrid BusinessCase decision is total — it returns a verdict
(`some` Allow/Deny, never the raising execution `none`) for every principal
and level, provided each of the line items references an existing BudgetItem;
this precondition is what keeps the unconditional `budget_item.id` dereference
inside the explicit-budget-grant query from hitting `None`. -/
theorem c10_hybrid_policy_total
    (db : DB) (now : Nat) (u : Principal) (bc : BusinessCaseRow) (required : String)
    (h : ∀ li ∈ bc.lineItems, li.budgetItem.isSome = true) :
    (check_business_case_access db now u bc required).isSome = true := by
  unfold check_business_case_access
  split
  · rfl
  · split
    · split
      · rfl
      · cases hg : bcFirstGrant db now u bc.id with
        | none => rfl
        | some a =>
          simp only []
          split
          · rfl
          · exact bcTailDecision_isSome db now u bc required h
    · exact bcTailDecision_isSome db now u bc required h

/-- C10 witness: the decision on business case 2, whose single line item has a
resolved budget item, yields a verdict. -/
theorem c10_witness :
    (∀ li ∈ bcScn10.lineItems, li.budgetItem.isSome = true) ∧
    (check_business_case_access {} 0 userScn5 bcScn10 "Write").isSome = true := by
  refine ⟨by decide, ?_⟩
  exact c10_hybrid_policy_total {} 0 userScn5 bcScn10 "Write" (by decide)

/-- Filtering a list by a test that the search test already entails does not
change the result of `find?`. -/
theorem find?_filter_of_imp {α : Type} (p q : α → Bool) (l : List α)
    (h : ∀ a, p a = true → q a = true) :
    (l.filter q).find? p = l.find? p := by
  induction l with
  | nil => rfl
  | cons a t ih =>
    cases hq : q a with
    | false =>
      have hp : ¬ (p a = true) := fun hpa => by rw [h a hpa] at hq; cases hq
      rw [List.filter_cons_of_neg (by simp [hq]), ih, List.find?_cons_of_neg _ hp]
    | true =>
      rw [List.filter_cons_of_pos (by simp [hq])]
      by_cases hp : p a = true
      · rw [List.find?_cons_of_pos _ hp, List.find?_cons_of_pos _ hp]
      · rw [List.find?_cons_of_neg _ hp, List.find?_cons_of_neg _ hp, ih]

/-- `List.any` only depends on the pointwise values of its test. -/
theorem any_ext {α : Type} (l : List α) (f g : α → Bool) (h : ∀ a, f a = g a) :
    l.any f = l.any g := by
  induction l with
  | nil => rfl
  | cons a t ih => simp only [List.any_cons, h a, ih]

/-- The creator rule reads only the record store, not the grant table. -/
theorem creatorAllows_accesses_irrel (db : DB) (l : List RecordAccessRow)
    (u : Principal) (rt : String) (rid : Nat) :
    creatorAllows { db with accesses := l } u rt rid = creatorAllows db u rt rid := rfl

/-- The owner-group rule reads only the record store and memberships. -/
theorem ownerAllows_accesses_irrel (db : DB) (l : List RecordAccessRow)
    (u : Principal) (rt : String) (rid : Nat) :
    ownerAllows { db with accesses := l } u rt rid = ownerAllows db u rt rid := rfl

/-- The department fallback reads only the record store. -/
theorem deptAllows_accesses_irrel (db : DB) (l : List RecordAccessRow)
    (u : Principal) (rt : String) (rid : Nat) (required : String) :
    deptAllows { db with accesses := l } u rt rid required =
      deptAllows db u rt rid required := rfl

/-- Dropping expired grants does not change the direct user-grant rule: its
query already carries the `expires_at IS NULL OR expires_at > now()` filter. -/
theorem userGrantAllows_filter_expired (db : DB) (now : Nat) (u : Principal)
    (rt : String) (rid : Nat) (required : String) :
    userGrantAllows { db with accesses := db.accesses.filter (fun a => nonExpired now a) }
      now u rt rid required = userGrantAllows db now u rt rid required := by
  unfold userGrantAllows
  rw [show ({ db with accesses := db.accesses.filter (fun a => nonExpired now a) } : DB).accesses
      = db.accesses.filter (fun a => nonExpired now a) from rfl]
  rw [find?_filter_of_imp _ _ _ (fun a ha => by rw [Bool.and_eq_true] at ha; exact ha.2)]

/-- Dropping expired grants does not change the group-grant rule. -/
theorem groupGrantAllows_filter_expired (db : DB) (now : Nat) (u : Principal)
    (rt : String) (rid : Nat) (required : String) :
    groupGrantAllows { db with accesses := db.accesses.filter (fun a => nonExpired now a) }
      now u rt rid required = groupGrantAllows db now u rt rid required := by
  unfold groupGrantAllows
  refine any_ext _ _ _ (fun m => ?_)
  rw [show ({ db with accesses := db.accesses.filter (fun a => nonExpired now a) } : DB).accesses
      = db.accesses.filter (fun a => nonExpired now a) from rfl]
  rw [find?_filter_of_imp _ _ _ (fun a ha => by rw [Bool.and_eq_true] at ha; exact ha.2)]

/-- C8 counterexample: the grant-authority check inside `grant_access` queries
Full-level grants WITHOUT the expiry filter, so a Full grant that expired at
time 5 still lets its holder grant access at time 10 — removing the expired
grant flips the outcome from `ok` to `forbidden`, refuting "never contributes
to any access decision". -/
theorem c8_counterexample :
    nonExpired 10 grantScn8 = false ∧
    grant_access dbScn8 10 userScn8 reqScn8 =
      .ok { id := 1, recordType := "BudgetItem", recordId := 10, userId := some 2,
            groupId := none, accessLevel := "Read", grantedBy := some 1,
            grantedAt := some 10 } ∧
    grant_access dbScn8absent 10 userScn8 reqScn8 = .forbidden := by
  exact ⟨by decide, by decide, by decide⟩

/-- C8 amended: the generic access decision `check_record_access` is invariant
under removing expired grants — every grant query it performs carries the
`expires_at IS NULL OR expires_at > now()` predicate, so an expired grant
never contributes to the decision or the effective level at any required
level.  (The exception, refuted by the counterexample, is the grant-authority
Full-grant check inside `grant_access`, whose query has no expiry filter.) -/
theorem c8_decisions_ignore_expired_grants (db : DB) (now : Nat) (u : Principal)
    (rt : String) (rid : Nat) (required : String) :
    check_record_access { db with accesses := db.accesses.filter (fun a => nonExpired now a) }
      now u rt rid required = check_record_access db now u rt rid required := by
  unfold check_record_access
  rw [creatorAllows_accesses_irrel, ownerAllows_accesses_irrel,
    deptAllows_accesses_irrel, userGrantAllows_filter_expired,
    groupGrantAllows_filter_expired]

/-- Any role other than Admin and Manager is capped at level 1 (Write) by
`role_caps` — including unknown roles, which default to 0. -/
theorem roleCap_le_one (role : String) (hA : role ≠ "Admin") (hM : role ≠ "Manager") :
    roleCap role ≤ 1 := by
  have hA' : (role == "Admin") = false := by simp [hA]
  have hM' : (role == "Manager") = false := by simp [hM]
  unfold roleCap
  by_cases h1 : (role == "Viewer") = true
  · rw [if_pos h1]
    exact Nat.zero_le 1
  · rw [if_neg h1]
    by_cases h2 : (role == "User") = true
    · rw [if_pos h2]
    · rw [if_neg h2, if_neg (by simp [hM']), if_neg (by simp [hA'])]
      exact Nat.zero_le 1

/-- The direct user-grant rule is monotone from Write down to Read: the grant
lookup does not depend on the required level, and a level ≥ 1 is ≥ 0. -/
theorem userGrantAllows_write_imp_read (db : DB) (now : Nat) (u : Principal)
    (rt : String) (rid : Nat)
    (h : userGrantAllows db now u rt rid "Write" = true) :
    userGrantAllows db now u rt rid "Read" = true := by
  unfold userGrantAllows at h ⊢
  cases hf : db.accesses.find? (fun a =>
      a.recordType == rt && a.recordId == rid &&
      a.userId == some u.id && nonExpired now a) with
  | none =>
    simp only [hf] at h
    exact Bool.noConfusion h
  | some a => simp [reqVal]

/-- The group-grant rule is monotone from Write down to Read. -/
theorem groupGrantAllows_write_imp_read (db : DB) (now : Nat) (u : Principal)
    (rt : String) (rid : Nat)
    (h : groupGrantAllows db now u rt rid "Write" = true) :
    groupGrantAllows db now u rt rid "Read" = true := by
  unfold groupGrantAllows at h ⊢
  rw [List.any_eq_true] at h ⊢
  obtain ⟨m, hm, hfm⟩ := h
  refine ⟨m, hm, ?_⟩
  cases hf : db.accesses.find? (fun a =>
      a.recordType == rt && a.recordId == rid &&
      a.groupId == some m.groupId && nonExpired now a) with
  | none =>
    simp only [hf] at hfm
    exact Bool.noConfusion hfm
  | some a => simp [reqVal]

/-- The department fallback accepts at Read whenever it accepts at Write: its
level test is membership of {Read, Write}. -/
theorem deptAllows_required_irrel (db : DB) (u : Principal)
    (rt : String) (rid : Nat) :
    deptAllows db u rt rid "Read" = deptAllows db u rt rid "Write" := by
  unfold deptAllows
  cases dbGet db rt rid with
  | none => rfl
  | some r => simp

/-- The post-gate rule chain of `check_record_access`, written as one
disjunction. -/
theorem check_tail_or (db : DB) (now : Nat) (u : Principal)
    (rt : String) (rid : Nat) (required : String) :
    (if creatorAllows db u rt rid then (true : Bool)
     else if ownerAllows db u rt rid then true
     else if userGrantAllows db now u rt rid required then true
     else if groupGrantAllows db now u rt rid required then true
     else if deptAllows db u rt rid required then true
     else false)
    = (creatorAllows db u rt rid || ownerAllows db u rt rid ||
       userGrantAllows db now u rt rid required ||
       groupGrantAllows db now u rt rid required ||
       deptAllows db u rt rid required) := by
  cases creatorAllows db u rt rid <;>
    cases ownerAllows db u rt rid <;>
    cases userGrantAllows db now u rt rid required <;>
    cases groupGrantAllows db now u rt rid required <;>
    cases deptAllows db u rt rid required <;> simp

/-- C9: for every non-Admin/Manager principal the generic decision is monotone
in the required level: Allow at Full implies Allow at Write (vacuously — the
role-capability gate caps such principals at Write, so Full is always denied),
and Allow at Write implies Allow at Read (every rule that fires at Write also
fires at Read). -/
theorem c9_level_monotone (db : DB) (now : Nat) (u : Principal)
    (rt : String) (rid : Nat)
    (hA : u.role ≠ "Admin") (hM : u.role ≠ "Manager") :
    (check_record_access db now u rt rid "Full" = true →
      check_record_access db now u rt rid "Write" = true) ∧
    (check_record_access db now u rt rid "Write" = true →
      check_record_access db now u rt rid "Read" = true) := by
  have hA' : (u.role == "Admin") = false := by simp [hA]
  have hM' : (u.role == "Manager") = false := by simp [hM]
  have hcap := roleCap_le_one u.role hA hM
  constructor
  · intro hF
    exfalso
    have hfalse : check_record_access db now u rt rid "Full" = false := by
      unfold check_record_access
      rw [if_neg (by simp [hA']), if_neg (by simp [hM']),
        if_pos (Nat.lt_of_le_of_lt hcap (by decide))]
    rw [hfalse] at hF
    cases hF
  · intro hW
    unfold check_record_access at hW ⊢
    rw [if_neg (by simp [hA']), if_neg (by simp [hM'])] at hW ⊢
    by_cases hg : roleCap u.role < reqVal "Write"
    · rw [if_pos hg] at hW
      cases hW
    · rw [if_neg hg] at hW
      rw [if_neg (show ¬ (roleCap u.role < reqVal "Read") from Nat.not_lt_zero _)]
      rw [check_tail_or] at hW
      rw [check_tail_or]
      simp only [Bool.or_eq_true] at hW ⊢
      rcases hW with (((h1 | h2) | h3) | h4) | h5
      · exact Or.inl (Or.inl (Or.inl (Or.inl h1)))
      · exact Or.inl (Or.inl (Or.inl (Or.inr h2)))
      · exact Or.inl (Or.inl (Or.inr (userGrantAllows_write_imp_read db now u rt rid h3)))
      · exact Or.inl (Or.inr (groupGrantAllows_write_imp_read db now u rt rid h4))
      · refine Or.inr ?_
        rw [deptAllows_required_irrel]
        exact h5

/-- C9 witness: `User` 1, holding a Write grant on BudgetItem 5, satisfies both
monotonicity implications. -/
theorem c9_witness :
    userScn9.role ≠ "Admin" ∧ userScn9.role ≠ "Manager" ∧
    ((check_record_access dbScn9 0 userScn9 "BudgetItem" 5 "Full" = true →
       check_record_access dbScn9 0 userScn9 "BudgetItem" 5 "Write" = true) ∧
     (check_record_access dbScn9 0 userScn9 "BudgetItem" 5 "Write" = true →
       check_record_access dbScn9 0 userScn9 "BudgetItem" 5 "Read" = true)) := by
  refine ⟨by decide, by decide, ?_⟩
  exact c9_level_monotone dbScn9 0 userScn9 "BudgetItem" 5 (by decide) (by decide)

end Mazarbul
